import Mathlib

/-!
Shallow embedding of `src/api/chat.js` (Danarfr27/WormGPT): a serverless
proxy handler with round-robin rotation over a pool of API keys, retry
classification of upstream failures, and (in other repository variants)
a sliding-window admission controller.

The upstream network is modelled as an oracle `resp : Nat → FetchOutcome`
giving the outcome of the fetch performed at each loop attempt
(attempt `a` uses the credential at index `(rotationIndex + a) % total`,
so the oracle indexed by attempt determines the outcome of each call).
The parsed JSON body is abstracted to a token (`Detail.json`), since the
response re-shaping is out of the specified core; `response.json()`
rejection is modelled by `BodyParse.parseError`, which the code replaces
by a `\x7bparseError\x7d` object via `.catch`.
-/

namespace Chat

/-- Outcome of `await response.json().catch(...)`: either parsed JSON data
(abstracted to a token) or a parse error message. -/
inductive BodyParse where
  | parsed (data : String)
  | parseError (msg : String)
deriving DecidableEq

/-- Outcome of one `fetch` call: a network error (promise rejection caught by
the `try/catch`) or an HTTP response with a status and a body. -/
inductive FetchOutcome where
  | netErr (msg : String)
  | response (status : Nat) (body : BodyParse)
deriving DecidableEq

/-- The value of the `data` variable after line 72: parsed JSON, or the
object `\x7b parseError: String(e) \x7d` substituted by `.catch`. -/
inductive Detail where
  | json (d : String)
  | parseErrorObj (msg : String)
deriving DecidableEq

/-- `data = await response.json().catch(e => (\x7b parseError: String(e) \x7d))`. -/
def dataOf : BodyParse → Detail
  | .parsed d => .json d
  | .parseError e => .parseErrorObj e

/-- One entry of the `results` array: `\x7bstatus, detail\x7d` pushed on an HTTP
failure, or `\x7bstatus: 'network_error', detail\x7d` pushed in the catch block. -/
inductive AttemptRecord where
  | httpFail (status : Nat) (detail : Detail)
  | networkError (detail : String)
deriving DecidableEq

/-- The record pushed onto `results` for a failed fetch outcome. -/
def recordOf : FetchOutcome → AttemptRecord
  | .netErr e => .networkError e
  | .response s b => .httpFail s (dataOf b)

/-- The distinct responses the handler can send once past method/body checks:
500 configuration error, 200 success (normalized payload carrying the raw
data), the upstream status echoed on a terminal error, or the 502
all-keys-failed response carrying the `results` array. -/
inductive HandlerResult where
  | configError
  | success (raw : Detail)
  | terminal (status : Nat) (details : Detail)
  | exhausted (attempts : List AttemptRecord)
deriving DecidableEq

/-- HTTP status code of each handler exit, read off the `res.status(...)`
calls in the source. -/
def httpStatus : HandlerResult → Nat
  | .configError => 500
  | .success _ => 200
  | .terminal s _ => s
  | .exhausted _ => 502

/-- The `error` field of the JSON body sent on each failure exit. -/
def errorMessage : HandlerResult → Option String
  | .configError => some "Server not configured. Set GENERATIVE_API_KEYS or GENERATIVE_API_KEY in environment."
  | .success _ => none
  | .terminal _ _ => some "External API error"
  | .exhausted _ => some "All API keys failed"

/-- `response.ok` of the Fetch API: status in the range 200..299. -/
def statusOk (s : Nat) : Bool := decide (200 ≤ s ∧ s < 300)

/-- The non-retryable test on line 120:
`status >= 400 && status < 500 && status !== 401 && status !== 403 && status !== 429`. -/
def isTerminalStatus (s : Nat) : Bool :=
  decide (400 ≤ s ∧ s < 500 ∧ s ≠ 401 ∧ s ≠ 403 ∧ s ≠ 429)

/-- A fetch outcome on which the loop continues to the next key: a network
error, or a response that is neither `ok` nor a terminal 4xx. -/
def retryableOutcome : FetchOutcome → Bool
  | .netErr _ => true
  | .response s _ => !statusOk s && !isTerminalStatus s

/-- `keyIndex = (rotationIndex + attempt) % total` (line 35). -/
def keyIndexAt (cursor attempt total : Nat) : Nat := (cursor + attempt) % total

/-- Result of running the key-rotation loop: the handler result, the value of
the module-scoped `rotationIndex` after the request, and (as ghost
instrumentation, not present in the source) the ordered list of key indices
for which a fetch was actually performed. -/
structure DispatchOut where
  result : HandlerResult
  cursor : Nat
  trace : List Nat
deriving DecidableEq

/-- The `for (let attempt = 0; attempt < total; attempt++)` loop of the
handler, written as structural recursion on the remaining number of
attempts (`fuel = total - attempt`). `acc` is the `results` array in
reverse push order; `tr` is the ghost trace in reverse order. -/
def dispatchAux (total start : Nat) (resp : Nat → FetchOutcome) :
    Nat → Nat → List AttemptRecord → List Nat → DispatchOut
  | 0, _, acc, tr => ⟨.exhausted acc.reverse, start, tr.reverse⟩
  | fuel + 1, attempt, acc, tr =>
    let keyIndex := keyIndexAt start attempt total
    match resp attempt with
    | .netErr e =>
      dispatchAux total start resp fuel (attempt + 1)
        (.networkError e :: acc) (keyIndex :: tr)
    | .response s b =>
      if statusOk s then
        ⟨.success (dataOf b), (keyIndex + 1) % total, (keyIndex :: tr).reverse⟩
      else
        if isTerminalStatus s then
          ⟨.terminal s (dataOf b), start, (keyIndex :: tr).reverse⟩
        else
          dispatchAux total start resp fuel (attempt + 1)
            (.httpFail s (dataOf b) :: acc) (keyIndex :: tr)

/-- The rotation loop of lines 34-134, entered with the parsed key list and
the current value of `rotationIndex`. -/
def dispatch (keys : List String) (start : Nat) (resp : Nat → FetchOutcome) :
    DispatchOut :=
  dispatchAux keys.length start resp keys.length 0 [] []

/-- JavaScript `a || b` on an optional environment variable: the value when
set and non-empty, otherwise the fallback. -/
def envOr (v : Option String) (fallback : String) : String :=
  match v with
  | some s => if s = "" then fallback else s
  | none => fallback

/-- `process.env.GENERATIVE_API_KEYS || process.env.GENERATIVE_API_KEY || ''`. -/
def rawKeys (keysEnv keyEnv : Option String) : String :=
  envOr keysEnv (envOr keyEnv "")

/-- Whitespace characters removed by JavaScript `String.prototype.trim`
(restricted to the common ASCII ones). -/
def isWs (c : Char) : Bool := c = ' ' || c = '\t' || c = '\n' || c = '\r'

/-- JavaScript `s.trim()`: strip leading and trailing whitespace. -/
def jsTrim (s : String) : String :=
  String.mk (((s.toList.dropWhile isWs).reverse.dropWhile isWs).reverse)

/-- Splitter underlying `s.split(',')`: `cur` holds the current chunk in
reverse. -/
def splitCommaAux : List Char → List Char → List (List Char)
  | [], cur => [cur.reverse]
  | c :: cs, cur =>
    if c = ',' then cur.reverse :: splitCommaAux cs []
    else splitCommaAux cs (c :: cur)

/-- JavaScript `s.split(',')`. -/
def jsSplitComma (s : String) : List String :=
  (splitCommaAux s.toList []).map String.mk

/-- Lines 18-22: `rawKeys.split(',').map(k => k.trim()).filter(Boolean).slice(0, 5)`. -/
def parseKeys (keysEnv keyEnv : Option String) : List String :=
  (((jsSplitComma (rawKeys keysEnv keyEnv)).map jsTrim).filter
    (fun s => s != "")).take 5

/-- Pool parsing as the spec words it (section 6): the comma-separated
`GENERATIVE_API_KEYS` value is preferred, falling back to the singular
`GENERATIVE_API_KEY`; entries are trimmed, empty entries are dropped, and
the ordered pool is capped at 5 credentials. -/
def parseKeysSpec (keysEnv keyEnv : Option String) : List String :=
  let chosen : String :=
    match keysEnv with
    | some s =>
      if s ≠ "" then s
      else
        match keyEnv with
        | some t => if t ≠ "" then t else ""
        | none => ""
    | none =>
      match keyEnv with
      | some t => if t ≠ "" then t else ""
      | none => ""
  ((jsSplitComma chosen).foldr
    (fun e acc => if jsTrim e = "" then acc else jsTrim e :: acc) []).take 5

/-- The handler past the method check: parse the key pool from the
environment, fail with the configuration error when it is empty (line 24),
otherwise run the rotation loop. -/
def handler (keysEnv keyEnv : Option String) (start : Nat)
    (resp : Nat → FetchOutcome) : DispatchOut :=
  let keys := parseKeys keysEnv keyEnv
  if keys.length = 0 then ⟨.configError, start, []⟩
  else dispatch keys start resp

/-- New cursor value after one logical request. -/
def step (keys : List String) (resp : Nat → FetchOutcome) (cursor : Nat) : Nat :=
  (dispatch keys cursor resp).cursor

/-- Cursor value after a sequence of logical requests, each with its own
upstream oracle, threading the module-scoped `rotationIndex`. -/
def runCursor (keys : List String) : List (Nat → FetchOutcome) → Nat → Nat
  | [], c => c
  | r :: rs, c => runCursor keys rs (step keys r c)

/-- Modelled from the spec: the Admission Controller (`admission`) is present
only in other variants of this repository, not in `src/api/chat.js`.
Following spec section 4.1: look up the client window, filter out
timestamps older than `windowMs` relative to `now`, reject without
recording when the count is at least `maxRequests` (persisting the
filtered sequence), otherwise append `now` and admission. -/
def admission (window : List Nat) (now windowMs maxRequests : Nat) :
    Bool × List Nat :=
  let fresh := window.filter (fun t => decide (now - t < windowMs))
  if maxRequests ≤ fresh.length then (false, fresh)
  else (true, fresh ++ [now])

/-- Modelled from the spec: the admission decisions for a sequence of
request timestamps from a single client, threading the stored window. -/
def admissionRun (windowMs maxRequests : Nat) :
    List Nat → List Nat → List Bool
  | [], _ => []
  | t :: ts, w =>
    let a := admission w t windowMs maxRequests
    a.1 :: admissionRun windowMs maxRequests ts a.2

/-- Observable outcome of one inbound request through the composed pipeline:
HTTP status, number of upstream fetches performed, the cursor after the
request, and the stored client window. -/
structure ServeOut where
  status : Nat
  upstreamCalls : Nat
  cursor : Nat
  window : List Nat
deriving DecidableEq

/-- Modelled from the spec: the control flow of section 2 — an inbound
request first passes through the Admission Controller and is rejected
with 429 before any upstream work when not admitted; if admitted it is
handed to the key-rotation dispatcher of `src/api/chat.js`. -/
def serve (windowMs maxRequests : Nat) (window : List Nat) (now : Nat)
    (keys : List String) (start : Nat) (resp : Nat → FetchOutcome) : ServeOut :=
  let a := admission window now windowMs maxRequests
  if a.1 then
    let d := if keys.length = 0 then DispatchOut.mk .configError start []
             else dispatch keys start resp
    ⟨httpStatus d.result, d.trace.length, d.cursor, a.2⟩
  else
    ⟨429, 0, start, a.2⟩

/-! Helper lemmas about one step of the rotation loop. -/

theorem dispatchAux_step_net {resp : Nat → FetchOutcome} {attempt : Nat} {e : String}
    (total start fuel : Nat) (acc : List AttemptRecord) (tr : List Nat)
    (h : resp attempt = .netErr e) :
    dispatchAux total start resp (fuel + 1) attempt acc tr =
      dispatchAux total start resp fuel (attempt + 1)
        (.networkError e :: acc) (keyIndexAt start attempt total :: tr) := by
  simp [dispatchAux, h]

theorem dispatchAux_step_ok {resp : Nat → FetchOutcome} {attempt s : Nat} {b : BodyParse}
    (total start fuel : Nat) (acc : List AttemptRecord) (tr : List Nat)
    (h : resp attempt = .response s b) (hok : statusOk s = true) :
    dispatchAux total start resp (fuel + 1) attempt acc tr =
      ⟨.success (dataOf b), (keyIndexAt start attempt total + 1) % total,
       (keyIndexAt start attempt total :: tr).reverse⟩ := by
  simp [dispatchAux, h, hok]

theorem dispatchAux_step_term {resp : Nat → FetchOutcome} {attempt s : Nat} {b : BodyParse}
    (total start fuel : Nat) (acc : List AttemptRecord) (tr : List Nat)
    (h : resp attempt = .response s b) (hok : statusOk s = false)
    (ht : isTerminalStatus s = true) :
    dispatchAux total start resp (fuel + 1) attempt acc tr =
      ⟨.terminal s (dataOf b), start, (keyIndexAt start attempt total :: tr).reverse⟩ := by
  simp [dispatchAux, h, hok, ht]

theorem dispatchAux_step_retry {resp : Nat → FetchOutcome} {attempt s : Nat} {b : BodyParse}
    (total start fuel : Nat) (acc : List AttemptRecord) (tr : List Nat)
    (h : resp attempt = .response s b) (hok : statusOk s = false)
    (ht : isTerminalStatus s = false) :
    dispatchAux total start resp (fuel + 1) attempt acc tr =
      dispatchAux total start resp fuel (attempt + 1)
        (.httpFail s (dataOf b) :: acc) (keyIndexAt start attempt total :: tr) := by
  simp [dispatchAux, h, hok, ht]

theorem dispatchAux_step_retryable {resp : Nat → FetchOutcome} {attempt : Nat}
    (total start fuel : Nat) (acc : List AttemptRecord) (tr : List Nat)
    (h : retryableOutcome (resp attempt) = true) :
    dispatchAux total start resp (fuel + 1) attempt acc tr =
      dispatchAux total start resp fuel (attempt + 1)
        (recordOf (resp attempt) :: acc) (keyIndexAt start attempt total :: tr) := by
  cases hr : resp attempt with
  | netErr e => rw [dispatchAux_step_net total start fuel acc tr hr]; simp [recordOf, hr]
  | response s b =>
    rw [hr] at h
    simp only [retryableOutcome, Bool.and_eq_true, Bool.not_eq_true'] at h
    rw [dispatchAux_step_retry total start fuel acc tr hr h.1 h.2]
    simp [recordOf, hr]

theorem range_map_shift {α : Type} (g : Nat → α) (k attempt : Nat) :
    (List.range (k + 1)).map (fun a => g (attempt + a)) =
      g attempt :: (List.range k).map (fun a => g (attempt + 1 + a)) := by
  rw [List.range_succ_eq_map, List.map_cons, List.map_map, Nat.add_zero]
  refine congrArg _ (List.map_congr_left fun a _ => ?_)
  simp only [Function.comp_apply]
  congr 1
  omega

/-! Main lemmas about whole runs of the rotation loop. -/

theorem dispatchAux_success_at (total start : Nat) (resp : Nat → FetchOutcome)
    {s : Nat} {b : BodyParse} (hok : statusOk s = true) :
    ∀ (k fuel attempt : Nat) (acc : List AttemptRecord) (tr : List Nat),
      k < fuel →
      (∀ a, a < k → retryableOutcome (resp (attempt + a)) = true) →
      resp (attempt + k) = .response s b →
      dispatchAux total start resp fuel attempt acc tr =
        ⟨.success (dataOf b), (keyIndexAt start (attempt + k) total + 1) % total,
         tr.reverse ++ (List.range (k + 1)).map
           (fun a => keyIndexAt start (attempt + a) total)⟩ := by
  intro k
  induction k with
  | zero =>
    intro fuel attempt acc tr hf hk hs
    obtain ⟨f, rfl⟩ : ∃ f, fuel = f + 1 := ⟨fuel - 1, by omega⟩
    rw [Nat.add_zero] at hs
    rw [dispatchAux_step_ok total start f acc tr hs hok]
    simp [List.range_succ]
  | succ k ih =>
    intro fuel attempt acc tr hf hk hs
    obtain ⟨f, rfl⟩ : ∃ f, fuel = f + 1 := ⟨fuel - 1, by omega⟩
    have h0 : retryableOutcome (resp attempt) = true := by
      have := hk 0 (by omega); simpa using this
    rw [dispatchAux_step_retryable total start f acc tr h0]
    have hs' : resp (attempt + 1 + k) = .response s b := by
      have e : attempt + 1 + k = attempt + (k + 1) := by omega
      rw [e]; exact hs
    rw [ih f (attempt + 1) _ _ (by omega)
      (fun a ha => by
        have := hk (a + 1) (by omega)
        have e : attempt + (a + 1) = attempt + 1 + a := by omega
        rwa [e] at this) hs']
    have ecur : attempt + (k + 1) = attempt + 1 + k := by omega
    rw [ecur, range_map_shift (fun i => keyIndexAt start i total) (k + 1) attempt]
    simp [List.append_assoc]

theorem dispatchAux_terminal_at (total start : Nat) (resp : Nat → FetchOutcome)
    {s : Nat} {b : BodyParse} (hok : statusOk s = false)
    (ht : isTerminalStatus s = true) :
    ∀ (k fuel attempt : Nat) (acc : List AttemptRecord) (tr : List Nat),
      k < fuel →
      (∀ a, a < k → retryableOutcome (resp (attempt + a)) = true) →
      resp (attempt + k) = .response s b →
      dispatchAux total start resp fuel attempt acc tr =
        ⟨.terminal s (dataOf b), start,
         tr.reverse ++ (List.range (k + 1)).map
           (fun a => keyIndexAt start (attempt + a) total)⟩ := by
  intro k
  induction k with
  | zero =>
    intro fuel attempt acc tr hf hk hs
    obtain ⟨f, rfl⟩ : ∃ f, fuel = f + 1 := ⟨fuel - 1, by omega⟩
    rw [Nat.add_zero] at hs
    rw [dispatchAux_step_term total start f acc tr hs hok ht]
    simp [List.range_succ]
  | succ k ih =>
    intro fuel attempt acc tr hf hk hs
    obtain ⟨f, rfl⟩ : ∃ f, fuel = f + 1 := ⟨fuel - 1, by omega⟩
    have h0 : retryableOutcome (resp attempt) = true := by
      have := hk 0 (by omega); simpa using this
    rw [dispatchAux_step_retryable total start f acc tr h0]
    have hs' : resp (attempt + 1 + k) = .response s b := by
      have e : attempt + 1 + k = attempt + (k + 1) := by omega
      rw [e]; exact hs
    rw [ih f (attempt + 1) _ _ (by omega)
      (fun a ha => by
        have := hk (a + 1) (by omega)
        have e : attempt + (a + 1) = attempt + 1 + a := by omega
        rwa [e] at this) hs']
    rw [range_map_shift (fun i => keyIndexAt start i total) (k + 1) attempt]
    simp [List.append_assoc]

theorem dispatchAux_exhaust (total start : Nat) (resp : Nat → FetchOutcome) :
    ∀ (fuel attempt : Nat) (acc : List AttemptRecord) (tr : List Nat),
      (∀ a, a < fuel → retryableOutcome (resp (attempt + a)) = true) →
      dispatchAux total start resp fuel attempt acc tr =
        ⟨.exhausted (acc.reverse ++
           (List.range fuel).map (fun a => recordOf (resp (attempt + a)))),
         start,
         tr.reverse ++ (List.range fuel).map
           (fun a => keyIndexAt start (attempt + a) total)⟩ := by
  intro fuel
  induction fuel with
  | zero =>
    intro attempt acc tr _
    simp [dispatchAux]
  | succ f ih =>
    intro attempt acc tr h
    have h0 : retryableOutcome (resp attempt) = true := by
      have := h 0 (by omega); simpa using this
    rw [dispatchAux_step_retryable total start f acc tr h0]
    rw [ih (attempt + 1) _ _
      (fun a ha => by
        have := h (a + 1) (by omega)
        have e : attempt + (a + 1) = attempt + 1 + a := by omega
        rwa [e] at this)]
    rw [range_map_shift (fun a => recordOf (resp a)),
        range_map_shift (fun a => keyIndexAt start a total)]
    simp [List.append_assoc]

theorem dispatchAux_trace_shape (total start : Nat) (resp : Nat → FetchOutcome) :
    ∀ (fuel attempt : Nat) (acc : List AttemptRecord) (tr : List Nat),
      ∃ m, m ≤ fuel ∧
        (dispatchAux total start resp fuel attempt acc tr).trace =
          tr.reverse ++ (List.range m).map
            (fun a => keyIndexAt start (attempt + a) total) := by
  intro fuel
  induction fuel with
  | zero =>
    intro attempt acc tr
    exact ⟨0, Nat.le_refl 0, by simp [dispatchAux]⟩
  | succ f ih =>
    intro attempt acc tr
    cases hr : resp attempt with
    | netErr e =>
      rw [dispatchAux_step_net total start f acc tr hr]
      obtain ⟨m, hm, he⟩ := ih (attempt + 1) (.networkError e :: acc)
        (keyIndexAt start attempt total :: tr)
      refine ⟨m + 1, by omega, ?_⟩
      rw [he, range_map_shift (fun i => keyIndexAt start i total) m attempt]
      simp [List.append_assoc]
    | response s b =>
      by_cases hok : statusOk s = true
      · rw [dispatchAux_step_ok total start f acc tr hr hok]
        exact ⟨1, by omega, by simp [List.range_succ]⟩
      · rw [Bool.not_eq_true] at hok
        by_cases ht : isTerminalStatus s = true
        · rw [dispatchAux_step_term total start f acc tr hr hok ht]
          exact ⟨1, by omega, by simp [List.range_succ]⟩
        · rw [Bool.not_eq_true] at ht
          rw [dispatchAux_step_retry total start f acc tr hr hok ht]
          obtain ⟨m, hm, he⟩ := ih (attempt + 1) (.httpFail s (dataOf b) :: acc)
            (keyIndexAt start attempt total :: tr)
          refine ⟨m + 1, by omega, ?_⟩
          rw [he, range_map_shift (fun i => keyIndexAt start i total) m attempt]
          simp [List.append_assoc]

theorem dispatchAux_progress (total start : Nat) (resp : Nat → FetchOutcome) :
    ∀ (m fuel attempt : Nat) (acc : List AttemptRecord) (tr : List Nat),
      m ≤ fuel →
      (∀ a, a < m → retryableOutcome (resp (attempt + a)) = true) →
      tr.length + m ≤ (dispatchAux total start resp fuel attempt acc tr).trace.length := by
  intro m
  induction m with
  | zero =>
    intro fuel attempt acc tr _ _
    obtain ⟨m0, hm0, he⟩ := dispatchAux_trace_shape total start resp fuel attempt acc tr
    rw [he]; simp
  | succ m ih =>
    intro fuel attempt acc tr hf h
    obtain ⟨f, rfl⟩ : ∃ f, fuel = f + 1 := ⟨fuel - 1, by omega⟩
    have h0 : retryableOutcome (resp attempt) = true := by
      have := h 0 (by omega); simpa using this
    rw [dispatchAux_step_retryable total start f acc tr h0]
    have hrec := ih f (attempt + 1) (recordOf (resp attempt) :: acc)
      (keyIndexAt start attempt total :: tr) (by omega)
      (fun a ha => by
        have := h (a + 1) (by omega)
        have e : attempt + (a + 1) = attempt + 1 + a := by omega
        rwa [e] at this)
    simp only [List.length_cons] at hrec
    omega

theorem dispatchAux_terminal_inv (total start : Nat) (resp : Nat → FetchOutcome) :
    ∀ (fuel attempt : Nat) (acc : List AttemptRecord) (tr : List Nat) (s : Nat) (d : Detail),
      (dispatchAux total start resp fuel attempt acc tr).result = .terminal s d →
      isTerminalStatus s = true := by
  intro fuel
  induction fuel with
  | zero =>
    intro attempt acc tr s d h
    simp [dispatchAux] at h
  | succ f ih =>
    intro attempt acc tr s d h
    cases hr : resp attempt with
    | netErr e =>
      rw [dispatchAux_step_net total start f acc tr hr] at h
      exact ih (attempt + 1) _ _ s d h
    | response s' b =>
      by_cases hok : statusOk s' = true
      · rw [dispatchAux_step_ok total start f acc tr hr hok] at h
        simp at h
      · rw [Bool.not_eq_true] at hok
        by_cases ht : isTerminalStatus s' = true
        · rw [dispatchAux_step_term total start f acc tr hr hok ht] at h
          simp only [HandlerResult.terminal.injEq] at h
          rw [← h.1]; exact ht
        · rw [Bool.not_eq_true] at ht
          rw [dispatchAux_step_retry total start f acc tr hr hok ht] at h
          exact ih (attempt + 1) _ _ s d h

theorem step_first_success (keys : List String) (resp : Nat → FetchOutcome) (c : Nat)
    (hn : 0 < keys.length) {s : Nat} {b : BodyParse}
    (h0 : resp 0 = .response s b) (hok : statusOk s = true) :
    step keys resp c = (c + 1) % keys.length := by
  unfold step dispatch
  rw [dispatchAux_success_at keys.length c resp hok 0 keys.length 0 [] [] hn
    (fun a ha => absurd ha (by omega)) (by simpa using h0)]
  simp [keyIndexAt, Nat.mod_add_mod]

theorem runCursor_first_success (keys : List String) (hn : 0 < keys.length) :
    ∀ (resps : List (Nat → FetchOutcome)) (c : Nat), c < keys.length →
      (∀ r ∈ resps, ∃ s b, r 0 = FetchOutcome.response s b ∧ statusOk s = true) →
      runCursor keys resps c = (c + resps.length) % keys.length := by
  intro resps
  induction resps with
  | nil =>
    intro c hc _
    simp [runCursor, Nat.mod_eq_of_lt hc]
  | cons r rs ih =>
    intro c hc h
    obtain ⟨s, b, hr, hok⟩ := h r (List.mem_cons_self r rs)
    show runCursor keys rs (step keys r c) = _
    rw [step_first_success keys r c hn hr hok]
    rw [ih ((c + 1) % keys.length) (Nat.mod_lt _ hn)
      (fun r' hm => h r' (List.mem_cons_of_mem _ hm))]
    rw [Nat.mod_add_mod]
    simp only [List.length_cons]
    congr 1
    omega

theorem foldr_trim_filter (l : List String) :
    l.foldr (fun e acc => if jsTrim e = "" then acc else jsTrim e :: acc) [] =
      (l.map jsTrim).filter (fun s => s != "") := by
  induction l with
  | nil => rfl
  | cons x xs ih =>
    simp only [List.foldr_cons, List.map_cons, List.filter_cons, ih]
    by_cases h : jsTrim x = "" <;> simp [h]

theorem rawKeys_eq_chosen (keysEnv keyEnv : Option String) :
    rawKeys keysEnv keyEnv =
      (match keysEnv with
       | some s =>
         if s ≠ "" then s
         else
           match keyEnv with
           | some t => if t ≠ "" then t else ""
           | none => ""
       | none =>
         match keyEnv with
         | some t => if t ≠ "" then t else ""
         | none => "") := by
  cases keysEnv <;> cases keyEnv <;> simp [rawKeys, envOr, ite_not]

/-! Claim theorems. -/

/-- Claim C1: every inbound request first passes through the Admission
Controller before any upstream work: a request that is not admitted is
rejected with HTTP 429 and performs zero upstream calls, and with
windowMs = 10000 and maxRequests = 5, of six requests sent within two
seconds the first five are admitted and the sixth is rejected. -/
theorem claim_c1_admission_gate (window : List Nat) (now : Nat)
    (keys : List String) (start : Nat) (resp : Nat → FetchOutcome)
    (h : (admission window now 10000 5).1 = false) :
    (serve 10000 5 window now keys start resp).status = 429 ∧
    (serve 10000 5 window now keys start resp).upstreamCalls = 0 ∧
    admissionRun 10000 5 [0, 400, 800, 1200, 1600, 2000] [] =
      [true, true, true, true, true, false] := by
  refine ⟨?_, ?_, by decide⟩ <;> simp [serve, h]

/-- Witness for claim C1: after five admitted requests at times 0..1600ms
the sixth request at 2000ms is rejected with 429 and no upstream call. -/
theorem claim_c1_admission_gate_witness :
    (admission [0, 400, 800, 1200, 1600] 2000 10000 5).1 = false ∧
    ((serve 10000 5 [0, 400, 800, 1200, 1600] 2000 ["k1"] 0
        (fun _ => FetchOutcome.netErr "down")).status = 429 ∧
     (serve 10000 5 [0, 400, 800, 1200, 1600] 2000 ["k1"] 0
        (fun _ => FetchOutcome.netErr "down")).upstreamCalls = 0 ∧
     admissionRun 10000 5 [0, 400, 800, 1200, 1600, 2000] [] =
       [true, true, true, true, true, false]) :=
  ⟨by decide,
   claim_c1_admission_gate [0, 400, 800, 1200, 1600] 2000 ["k1"] 0
     (fun _ => FetchOutcome.netErr "down") (by decide)⟩

/-- Counterexample to claim C2 as stated: with two keys and the first
returning a terminal 400, the dispatcher returns that status immediately
but leaves the rotation cursor at its starting value 0; the claimed
cursor value (idx + 1) mod n = 1 is not taken (the source assigns
rotationIndex only on the success path, line 104). -/
theorem claim_c2_counterexample :
    dispatch ["k1", "k2"] 0 (fun _ => .response 400 (.parsed "bad")) =
      ⟨.terminal 400 (.json "bad"), 0, [0]⟩ ∧
    (dispatch ["k1", "k2"] 0 (fun _ => .response 400 (.parsed "bad"))).cursor
      ≠ (0 + 1) % 2 := by
  constructor <;> decide

/-- Claim C2 amended: when the first non-retryable response (a client-error
status other than 401, 403 and 429) appears at attempt k, the dispatcher
returns that response's status and detail immediately without trying any
remaining credential, and it leaves the rotation cursor unchanged at its
starting value. -/
theorem claim_c2_terminal_immediate (keys : List String) (start : Nat)
    (resp : Nat → FetchOutcome) (k s : Nat) (b : BodyParse)
    (hk : k < keys.length)
    (hprev : ∀ a, a < k → retryableOutcome (resp a) = true)
    (hresp : resp k = .response s b)
    (hok : statusOk s = false) (ht : isTerminalStatus s = true) :
    dispatch keys start resp =
      ⟨.terminal s (dataOf b), start,
       (List.range (k + 1)).map (fun a => keyIndexAt start a keys.length)⟩ ∧
    httpStatus (dispatch keys start resp).result = s ∧
    (dispatch keys start resp).trace.length = k + 1 := by
  have h := dispatchAux_terminal_at keys.length start resp hok ht k keys.length 0 [] [] hk
    (fun a ha => by simpa using hprev a ha) (by simpa using hresp)
  have hd : dispatch keys start resp =
      ⟨.terminal s (dataOf b), start,
       (List.range (k + 1)).map (fun a => keyIndexAt start a keys.length)⟩ := by
    unfold dispatch
    rw [h]
    simp
  refine ⟨hd, ?_, ?_⟩ <;> rw [hd] <;> simp [httpStatus]

/-- Witness for claim C2 amended: a terminal 400 at the first attempt in a
two-key pool returns 400 immediately with one attempt and cursor 0. -/
theorem claim_c2_terminal_immediate_witness :
    (0 < (["k1", "k2"] : List String).length) ∧
    statusOk 400 = false ∧ isTerminalStatus 400 = true ∧
    (dispatch ["k1", "k2"] 0 (fun _ => .response 400 (.parsed "bad")) =
       ⟨.terminal 400 (.json "bad"), 0, [0]⟩ ∧
     httpStatus (dispatch ["k1", "k2"] 0
       (fun _ => .response 400 (.parsed "bad"))).result = 400 ∧
     (dispatch ["k1", "k2"] 0
       (fun _ => .response 400 (.parsed "bad"))).trace.length = 0 + 1) :=
  ⟨by decide, by decide, by decide,
   claim_c2_terminal_immediate ["k1", "k2"] 0
     (fun _ => .response 400 (.parsed "bad")) 0 400 (.parsed "bad")
     (by decide) (fun a ha => absurd ha (by omega)) rfl (by decide) (by decide)⟩

/-- Counterexample to claim C3 as stated: a malformed JSON body on a
response whose HTTP status is 200 is NOT classified retryable — the
dispatcher returns it as a success result carrying the parse-error
object, after a single attempt, instead of continuing to the next
credential. -/
theorem claim_c3_counterexample :
    dispatch ["k1", "k2"] 0 (fun _ => .response 200 (.parseError "SyntaxError")) =
      ⟨.success (.parseErrorObj "SyntaxError"), 1, [0]⟩ := by
  decide

/-- Claim C3 amended: a malformed upstream JSON body on a response whose
HTTP status is not a success status and not a terminal 4xx is classified
retryable and the dispatcher continues to the next credential — when
every response carries a malformed body with such a status, all
credentials are tried and the dispatch exhausts, recording a parse-error
detail for each attempt; a malformed body with a success status is
instead returned as a success result. -/
theorem claim_c3_parse_error_retryable (keys : List String) (start : Nat)
    (resp : Nat → FetchOutcome) (st : Nat → Nat) (msg : Nat → String)
    (hresp : ∀ a, a < keys.length → resp a = .response (st a) (.parseError (msg a)))
    (hok : ∀ a, a < keys.length → statusOk (st a) = false)
    (ht : ∀ a, a < keys.length → isTerminalStatus (st a) = false) :
    dispatch keys start resp =
      ⟨.exhausted ((List.range keys.length).map
          (fun a => .httpFail (st a) (.parseErrorObj (msg a)))),
       start,
       (List.range keys.length).map (fun a => keyIndexAt start a keys.length)⟩ ∧
    (dispatch keys start resp).trace.length = keys.length := by
  have hretry : ∀ a, a < keys.length → retryableOutcome (resp (0 + a)) = true := by
    intro a ha
    rw [Nat.zero_add, hresp a ha]
    simp [retryableOutcome, hok a ha, ht a ha]
  have h := dispatchAux_exhaust keys.length start resp keys.length 0 [] []
    (fun a ha => hretry a ha)
  have e1 : (List.range keys.length).map (fun a => recordOf (resp (0 + a))) =
      (List.range keys.length).map
        (fun a => AttemptRecord.httpFail (st a) (Detail.parseErrorObj (msg a))) :=
    List.map_congr_left fun a ha => by
      rw [Nat.zero_add, hresp a (List.mem_range.mp ha)]
      simp [recordOf, dataOf]
  have hd : dispatch keys start resp =
      ⟨.exhausted ((List.range keys.length).map
          (fun a => .httpFail (st a) (.parseErrorObj (msg a)))),
       start,
       (List.range keys.length).map (fun a => keyIndexAt start a keys.length)⟩ := by
    unfold dispatch
    rw [h]
    simp only [List.reverse_nil, List.nil_append, e1]
    simp
  refine ⟨hd, ?_⟩
  rw [hd]
  simp

/-- Witness for claim C3 amended: two keys, every response a 500 with a
malformed body — both keys tried, exhaustion with parse-error details. -/
theorem claim_c3_parse_error_retryable_witness :
    (∀ a, a < (["k1", "k2"] : List String).length →
      (fun _ => FetchOutcome.response 500 (.parseError "bad")) a =
        .response 500 (.parseError "bad")) ∧
    statusOk 500 = false ∧ isTerminalStatus 500 = false ∧
    (dispatch ["k1", "k2"] 0 (fun _ => FetchOutcome.response 500 (.parseError "bad")) =
       ⟨.exhausted [.httpFail 500 (.parseErrorObj "bad"),
                    .httpFail 500 (.parseErrorObj "bad")], 0, [0, 1]⟩ ∧
     (dispatch ["k1", "k2"] 0
       (fun _ => FetchOutcome.response 500 (.parseError "bad"))).trace.length = 2) :=
  ⟨fun _ _ => rfl, by decide, by decide,
   claim_c3_parse_error_retryable ["k1", "k2"] 0
     (fun _ => FetchOutcome.response 500 (.parseError "bad"))
     (fun _ => 500) (fun _ => "bad")
     (fun _ _ => rfl) (fun _ _ => rfl) (fun _ _ => rfl)⟩

/-- Counterexample to claim C4 as stated: in a three-key pool where the
response at position 0 is a terminal 400 and the response at position 1
is the first with a successful HTTP status, the dispatcher does not
perform k + 1 = 2 attempts and does not return success — it stops after
one attempt with the terminal 400 and leaves the cursor at 0, not at
(0 + 1 + 1) mod 3 = 2. -/
theorem claim_c4_counterexample :
    dispatch ["k1", "k2", "k3"] 0
      (fun a => if a = 0 then .response 400 (.parsed "bad")
                else .response 200 (.parsed "ok")) =
      ⟨.terminal 400 (.json "bad"), 0, [0]⟩ ∧
    (dispatch ["k1", "k2", "k3"] 0
      (fun a => if a = 0 then .response 400 (.parsed "bad")
                else .response 200 (.parsed "ok"))).result
      ≠ .success (.json "ok") := by
  constructor <;> decide

/-- Claim C4 amended: when every attempt before modular position k yields a
retryable failure and the credential at position k is the first to return
a successful HTTP status, dispatch performs exactly k + 1 upstream
attempts, returns the success payload immediately with HTTP 200, and sets
the rotation cursor to (start + k + 1) mod N. -/
theorem claim_c4_first_success (keys : List String) (start : Nat)
    (resp : Nat → FetchOutcome) (k s : Nat) (b : BodyParse)
    (hk : k < keys.length)
    (hprev : ∀ a, a < k → retryableOutcome (resp a) = true)
    (hresp : resp k = .response s b) (hok : statusOk s = true) :
    dispatch keys start resp =
      ⟨.success (dataOf b), (start + k + 1) % keys.length,
       (List.range (k + 1)).map (fun a => keyIndexAt start a keys.length)⟩ ∧
    httpStatus (dispatch keys start resp).result = 200 ∧
    (dispatch keys start resp).trace.length = k + 1 := by
  have h := dispatchAux_success_at keys.length start resp hok k keys.length 0 [] [] hk
    (fun a ha => by simpa using hprev a ha) (by simpa using hresp)
  have hd : dispatch keys start resp =
      ⟨.success (dataOf b), (start + k + 1) % keys.length,
       (List.range (k + 1)).map (fun a => keyIndexAt start a keys.length)⟩ := by
    unfold dispatch
    rw [h]
    simp [keyIndexAt, Nat.mod_add_mod]
  refine ⟨hd, ?_, ?_⟩ <;> rw [hd] <;> simp [httpStatus]

/-- Witness for claim C4 amended: the spec's concrete scenario — three
keys, cursor 0, first key answers 429, second answers 200: two attempts,
success, cursor becomes 2. -/
theorem claim_c4_first_success_witness :
    (1 < (["k1", "k2", "k3"] : List String).length) ∧
    statusOk 200 = true ∧
    (dispatch ["k1", "k2", "k3"] 0
       (fun a => if a = 0 then .response 429 (.parsed "quota")
                 else .response 200 (.parsed "ok")) =
       ⟨.success (.json "ok"), 2, [0, 1]⟩ ∧
     httpStatus (dispatch ["k1", "k2", "k3"] 0
       (fun a => if a = 0 then .response 429 (.parsed "quota")
                 else .response 200 (.parsed "ok"))).result = 200 ∧
     (dispatch ["k1", "k2", "k3"] 0
       (fun a => if a = 0 then .response 429 (.parsed "quota")
                 else .response 200 (.parsed "ok"))).trace.length = 1 + 1) :=
  ⟨by decide, by decide,
   claim_c4_first_success ["k1", "k2", "k3"] 0
     (fun a => if a = 0 then .response 429 (.parsed "quota")
               else .response 200 (.parsed "ok")) 1 200 (.parsed "ok")
     (by decide) (fun a ha => by interval_cases a; decide) rfl (by decide)⟩

/-- Claim C5: when all N attempts yield retryable failures, dispatch
returns the exhaustion failure — HTTP 502 with error message
"All API keys failed" — carrying exactly N attempt records in the order
the credentials were tried, and the rotation cursor is left unchanged at
its starting value. -/
theorem claim_c5_exhaustion (keys : List String) (start : Nat)
    (resp : Nat → FetchOutcome)
    (h : ∀ a, a < keys.length → retryableOutcome (resp a) = true) :
    dispatch keys start resp =
      ⟨.exhausted ((List.range keys.length).map (fun a => recordOf (resp a))),
       start,
       (List.range keys.length).map (fun a => keyIndexAt start a keys.length)⟩ ∧
    httpStatus (dispatch keys start resp).result = 502 ∧
    errorMessage (dispatch keys start resp).result = some "All API keys failed" ∧
    ((List.range keys.length).map (fun a => recordOf (resp a))).length
      = keys.length ∧
    (dispatch keys start resp).cursor = start := by
  have hx := dispatchAux_exhaust keys.length start resp keys.length 0 [] []
    (fun a ha => by simpa using h a ha)
  have hd : dispatch keys start resp =
      ⟨.exhausted ((List.range keys.length).map (fun a => recordOf (resp a))),
       start,
       (List.range keys.length).map (fun a => keyIndexAt start a keys.length)⟩ := by
    unfold dispatch
    rw [hx]
    simp
  refine ⟨hd, ?_, ?_, by simp, ?_⟩ <;> rw [hd] <;> simp [httpStatus, errorMessage]

/-- Witness for claim C5: three keys all answering 429 — exhaustion with
three records, 502, cursor unchanged. -/
theorem claim_c5_exhaustion_witness :
    (∀ a, a < (["k1", "k2", "k3"] : List String).length →
      retryableOutcome ((fun _ => FetchOutcome.response 429 (.parsed "q")) a) = true) ∧
    (dispatch ["k1", "k2", "k3"] 0 (fun _ => FetchOutcome.response 429 (.parsed "q")) =
       ⟨.exhausted [.httpFail 429 (.json "q"), .httpFail 429 (.json "q"),
                    .httpFail 429 (.json "q")], 0, [0, 1, 2]⟩ ∧
     httpStatus (dispatch ["k1", "k2", "k3"] 0
       (fun _ => FetchOutcome.response 429 (.parsed "q"))).result = 502 ∧
     errorMessage (dispatch ["k1", "k2", "k3"] 0
       (fun _ => FetchOutcome.response 429 (.parsed "q"))).result
       = some "All API keys failed" ∧
     ((List.range (["k1", "k2", "k3"] : List String).length).map
       (fun a => recordOf ((fun _ => FetchOutcome.response 429 (.parsed "q")) a))).length
       = (["k1", "k2", "k3"] : List String).length ∧
     (dispatch ["k1", "k2", "k3"] 0
       (fun _ => FetchOutcome.response 429 (.parsed "q"))).cursor = 0) :=
  ⟨fun _ _ => rfl,
   claim_c5_exhaustion ["k1", "k2", "k3"] 0
     (fun _ => FetchOutcome.response 429 (.parsed "q")) (fun _ _ => rfl)⟩

/-- Claim C6: an empty parsed credential pool makes the handler fail
immediately with the configuration error — HTTP 500, a result distinct
from the exhaustion error — without any upstream call and without
modifying the rotation cursor. -/
theorem claim_c6_config_error (keysEnv keyEnv : Option String) (start : Nat)
    (resp : Nat → FetchOutcome)
    (h : parseKeys keysEnv keyEnv = []) :
    handler keysEnv keyEnv start resp = ⟨.configError, start, []⟩ ∧
    httpStatus (handler keysEnv keyEnv start resp).result = 500 ∧
    (handler keysEnv keyEnv start resp).trace = [] ∧
    (handler keysEnv keyEnv start resp).cursor = start ∧
    ∀ l, (handler keysEnv keyEnv start resp).result ≠ .exhausted l := by
  have hd : handler keysEnv keyEnv start resp = ⟨.configError, start, []⟩ := by
    unfold handler
    rw [h]
    simp
  refine ⟨hd, ?_, ?_, ?_, ?_⟩ <;> rw [hd] <;> simp [httpStatus]

/-- Witness for claim C6: with both environment variables unset the parsed
pool is empty and the handler returns the 500 configuration error with no
upstream call, leaving the (stale) cursor 7 unchanged. -/
theorem claim_c6_config_error_witness :
    parseKeys none none = [] ∧
    (handler none none 7 (fun _ => FetchOutcome.netErr "x") =
       ⟨.configError, 7, []⟩ ∧
     httpStatus (handler none none 7 (fun _ => FetchOutcome.netErr "x")).result = 500 ∧
     (handler none none 7 (fun _ => FetchOutcome.netErr "x")).trace = [] ∧
     (handler none none 7 (fun _ => FetchOutcome.netErr "x")).cursor = 7 ∧
     ∀ l, (handler none none 7 (fun _ => FetchOutcome.netErr "x")).result
       ≠ .exhausted l) :=
  ⟨by decide,
   claim_c6_config_error none none 7 (fun _ => FetchOutcome.netErr "x") (by decide)⟩

/-- Claim C7: network errors and HTTP 401, 403, 429 and server-error
statuses are all classified retryable — the dispatcher records each such
attempt and continues to the next credential (when the first m outcomes
are of these kinds, at least m attempts are performed), and such a
failure is never surfaced directly as the terminal result. -/
theorem claim_c7_retryable_classes (keys : List String) (start : Nat)
    (resp : Nat → FetchOutcome) (m : Nat) (hm : m ≤ keys.length)
    (hclass : ∀ a, a < m →
      (∃ e, resp a = .netErr e) ∨
      (∃ s b, resp a = .response s b ∧ (s = 401 ∨ s = 403 ∨ s = 429 ∨ 500 ≤ s))) :
    (∀ a, a < m → retryableOutcome (resp a) = true) ∧
    m ≤ (dispatch keys start resp).trace.length ∧
    (∀ s d, (dispatch keys start resp).result = .terminal s d →
      isTerminalStatus s = true ∧ ¬(s = 401 ∨ s = 403 ∨ s = 429 ∨ 500 ≤ s)) := by
  have hretry : ∀ a, a < m → retryableOutcome (resp a) = true := by
    intro a ha
    rcases hclass a ha with ⟨e, he⟩ | ⟨s, b, he, hs⟩
    · rw [he]; rfl
    · rw [he]
      simp only [retryableOutcome, statusOk, isTerminalStatus, Bool.and_eq_true,
        Bool.not_eq_true', decide_eq_false_iff_not]
      constructor <;> rcases hs with rfl | rfl | rfl | h5 <;> omega
  refine ⟨hretry, ?_, ?_⟩
  · have hp := dispatchAux_progress keys.length start resp m keys.length 0 [] [] hm
      (fun a ha => by simpa using hretry a ha)
    simpa using hp
  · intro s d hterm
    have hts := dispatchAux_terminal_inv keys.length start resp keys.length 0 [] [] s d hterm
    refine ⟨hts, ?_⟩
    simp only [isTerminalStatus, decide_eq_true_eq] at hts
    rintro (rfl | rfl | rfl | h5) <;> omega

/-- Witness for claim C7: one key answering with a network error — the
class is retryable, one attempt is performed, and the result is not a
terminal failure. -/
theorem claim_c7_retryable_classes_witness :
    (1 ≤ (["k1"] : List String).length) ∧
    ((∀ a, a < 1 → retryableOutcome ((fun _ => FetchOutcome.netErr "x") a) = true) ∧
     1 ≤ (dispatch ["k1"] 0 (fun _ => FetchOutcome.netErr "x")).trace.length ∧
     (∀ s d, (dispatch ["k1"] 0 (fun _ => FetchOutcome.netErr "x")).result
         = .terminal s d →
       isTerminalStatus s = true ∧ ¬(s = 401 ∨ s = 403 ∨ s = 429 ∨ 500 ≤ s))) :=
  ⟨by decide,
   claim_c7_retryable_classes ["k1"] 0 (fun _ => FetchOutcome.netErr "x") 1
     (by decide) (fun a _ => Or.inl ⟨"x", rfl⟩)⟩

/-- Claim C8: after M consecutive logical requests each succeeding on its
first attempt, with a fixed pool of size N and an initial cursor value in
range, the rotation cursor equals (initial + M) mod N; and within each
request the attempts proceed strictly sequentially in increasing modular
order starting from the cursor — the trace of any dispatch is exactly
(cursor + a) mod N for a = 0, 1, ... . -/
theorem claim_c8_round_robin (keys : List String) (init : Nat)
    (resps : List (Nat → FetchOutcome))
    (hn : 0 < keys.length) (hinit : init < keys.length)
    (hfirst : ∀ r ∈ resps, ∃ s b, r 0 = FetchOutcome.response s b ∧ statusOk s = true) :
    runCursor keys resps init = (init + resps.length) % keys.length ∧
    ∀ (start : Nat) (resp : Nat → FetchOutcome),
      (dispatch keys start resp).trace =
        (List.range (dispatch keys start resp).trace.length).map
          (fun a => keyIndexAt start a keys.length) := by
  refine ⟨runCursor_first_success keys hn resps init hinit hfirst, ?_⟩
  intro start resp
  obtain ⟨m, hm, he⟩ := dispatchAux_trace_shape keys.length start resp keys.length 0 [] []
  have hd : (dispatch keys start resp).trace =
      (List.range m).map (fun a => keyIndexAt start a keys.length) := by
    unfold dispatch
    rw [he]
    simp
  rw [hd]
  simp

/-- Witness for claim C8: pool of three keys, initial cursor 2, one request
succeeding on its first attempt — the cursor becomes (2 + 1) mod 3 = 0. -/
theorem claim_c8_round_robin_witness :
    (0 < (["k1", "k2", "k3"] : List String).length) ∧
    (2 < (["k1", "k2", "k3"] : List String).length) ∧
    (runCursor ["k1", "k2", "k3"]
       [fun _ => FetchOutcome.response 200 (.parsed "ok")] 2 = (2 + 1) % 3 ∧
     ∀ (start : Nat) (resp : Nat → FetchOutcome),
       (dispatch ["k1", "k2", "k3"] start resp).trace =
         (List.range (dispatch ["k1", "k2", "k3"] start resp).trace.length).map
           (fun a => keyIndexAt start a (["k1", "k2", "k3"] : List String).length)) :=
  ⟨by decide, by decide,
   claim_c8_round_robin ["k1", "k2", "k3"] 2
     [fun _ => FetchOutcome.response 200 (.parsed "ok")] (by decide) (by decide)
     (fun r hr => by
       rw [List.mem_singleton.mp hr]
       exact ⟨200, .parsed "ok", rfl, by decide⟩)⟩

/-- Claim C9: on every request the credential pool is parsed from
configuration exactly as the spec words it — the comma-separated
GENERATIVE_API_KEYS value preferred, falling back to the singular
GENERATIVE_API_KEY, entries trimmed, empty entries dropped — and the
resulting ordered pool has at most 5 credentials, each a non-empty
trimmed entry of the raw configuration value. -/
theorem claim_c9_pool_parsing (keysEnv keyEnv : Option String) :
    parseKeys keysEnv keyEnv = parseKeysSpec keysEnv keyEnv ∧
    (parseKeys keysEnv keyEnv).length ≤ 5 ∧
    ∀ k ∈ parseKeys keysEnv keyEnv, k ≠ "" ∧
      ∃ r ∈ jsSplitComma (rawKeys keysEnv keyEnv), k = jsTrim r := by
  refine ⟨?_, ?_, ?_⟩
  · simp only [parseKeys, parseKeysSpec, foldr_trim_filter]
    rw [rawKeys_eq_chosen]
  · simp only [parseKeys, List.length_take]
    omega
  · intro k hk
    simp only [parseKeys] at hk
    have hk1 := List.take_subset 5 _ hk
    obtain ⟨hk2, hne⟩ := List.mem_filter.mp hk1
    obtain ⟨r, hr, he⟩ := List.mem_map.mp hk2
    exact ⟨by simpa using hne, r, hr, he.symm⟩

/-- Claim C10: for every value of the rotation cursor — including a stale
value at least the pool size — and a non-empty pool, the index
(cursor + attempt) mod poolSize used to select a credential is always a
valid in-bounds index, and every key index actually fetched during a
dispatch is in bounds, so credential selection never accesses the pool
out of bounds. -/
theorem claim_c10_index_in_bounds (keys : List String) (start attempt : Nat)
    (resp : Nat → FetchOutcome) (hn : 0 < keys.length) :
    keyIndexAt start attempt keys.length < keys.length ∧
    ∀ i ∈ (dispatch keys start resp).trace, i < keys.length := by
  refine ⟨Nat.mod_lt _ hn, ?_⟩
  obtain ⟨m, hm, he⟩ := dispatchAux_trace_shape keys.length start resp keys.length 0 [] []
  have hd : (dispatch keys start resp).trace =
      (List.range m).map (fun a => keyIndexAt start a keys.length) := by
    unfold dispatch
    rw [he]
    simp
  rw [hd]
  intro i hi
  obtain ⟨a, ha, hia⟩ := List.mem_map.mp hi
  rw [← hia]
  exact Nat.mod_lt _ hn

/-- Witness for claim C10: a stale cursor 7 with a two-key pool — the
selected index is in bounds and every fetched index is in bounds. -/
theorem claim_c10_index_in_bounds_witness :
    (0 < (["k1", "k2"] : List String).length) ∧
    (keyIndexAt 7 5 (["k1", "k2"] : List String).length
       < (["k1", "k2"] : List String).length ∧
     ∀ i ∈ (dispatch ["k1", "k2"] 7 (fun _ => FetchOutcome.netErr "x")).trace,
       i < (["k1", "k2"] : List String).length) :=
  ⟨by decide,
   claim_c10_index_in_bounds ["k1", "k2"] 7 5
     (fun _ => FetchOutcome.netErr "x") (by decide)⟩

end Chat
